import Mathlib

/-! # Shallow embedding of the filetrace tracer

Definitions in this file are translated from the C++ sources of the
repository: `src/path_utils.hpp`, `src/directory_tree.hpp` and
`src/main.cpp`.  OS facilities (realpath-based normalization, getcwd,
stat, ptrace memory reads, `/proc` name snapshots) are passed in as
oracle parameters, so every definition is a pure, executable function. -/

/-- Model of `std::string::find(pre) == 0`: `pre` occurs at position 0. -/
def beginsWithChars : List Char → List Char → Bool
  | [], _ => true
  | _ :: _, [] => false
  | a :: as, b :: bs => a == b && beginsWithChars as bs

/-- `strBeginsWith s pre` is true when `pre` occurs at position 0 of `s`
(the C++ `s.find(pre) == 0` check). -/
def strBeginsWith (s pre : String) : Bool := beginsWithChars pre.data s.data

/-- Translation of `path_utils::is_within_directory` (path_utils.hpp,
lines 56-118).  `normalize_path` (the realpath-based normalizer) and
`getcwd` are oracles standing for the OS calls the C++ makes. -/
def is_within_directory (disable_directory_filtering : Bool)
    (normalize_path : String → String) (getcwd : Option String)
    (path base_dir : String) : Bool :=
  if disable_directory_filtering then true
  else if strBeginsWith path "/lib" || strBeginsWith path "/proc" ||
      strBeginsWith path "/etc/ld.so.cache" then true
  else
    let norm_path := normalize_path path
    let norm_base0 := normalize_path base_dir
    if norm_path == "" || norm_base0 == "" then false
    else if norm_path == norm_base0 then true
    else
      let norm_base := if norm_base0.data.getLast? == some '/' then norm_base0
        else norm_base0 ++ "/"
      let within0 := strBeginsWith norm_path norm_base
      if !within0 && path.data.head?.all (fun c => c != '/') then
        match getcwd with
        | some cwd => strBeginsWith (normalize_path (cwd ++ "/" ++ path)) norm_base
        | none => within0
      else within0

/-- C9: with the disable-filtering flag unset, `is_within_directory`
returns true for every path whose raw string begins with "/lib",
"/proc" or "/etc/ld.so.cache" — including unrelated paths such as
"/libfoo" — for every base directory, and the check happens before any
normalization (the result does not depend on the `normalize_path`
oracle, which is universally quantified here). -/
theorem C9_system_prefixes_always_allowed
    (normalize_path : String → String) (getcwd : Option String)
    (path base_dir : String)
    (h : (strBeginsWith path "/lib" || strBeginsWith path "/proc" ||
      strBeginsWith path "/etc/ld.so.cache") = true) :
    is_within_directory false normalize_path getcwd path base_dir = true := by
  unfold is_within_directory
  simp [h]

/-- Witness for C9 at the concrete path "/libfoo" and an unrelated base. -/
theorem C9_system_prefixes_always_allowed_witness :
    (strBeginsWith "/libfoo" "/lib" || strBeginsWith "/libfoo" "/proc" ||
      strBeginsWith "/libfoo" "/etc/ld.so.cache") = true ∧
    is_within_directory false (fun s => s) none "/libfoo" "/home/user" = true :=
  ⟨by decide,
   C9_system_prefixes_always_allowed (fun s => s) none "/libfoo" "/home/user"
    (by decide)⟩

/-- Tracee kind, from the C++ `enum class ProcessType` (main.cpp). -/
inductive ProcessType where
  | PROCESS
  | THREAD
deriving DecidableEq, Repr

/-- Translation of `struct ThreadInfo` (main.cpp, lines 42-52). -/
structure ThreadInfo where
  thread_id : Int
  parent_pid : Int
  name : String
  active : Bool
  process_type : ProcessType
  child_processes : List Int
  child_threads : List Int
  creation_time : Nat
  exit_status : Int
deriving DecidableEq, Repr

/-- The global `std::map<pid_t, ThreadInfo> thread_map`, modelled as an
association list with unique keys. -/
def Registry := List (Int × ThreadInfo)
deriving DecidableEq

/-- `thread_map.find(k)` returning the mapped record when present. -/
def regFind (m : Registry) (k : Int) : Option ThreadInfo :=
  match m with
  | [] => none
  | (k', v) :: rest => if k' == k then some v else regFind rest k

/-- `thread_map[k] = v`: update in place when the key exists, append otherwise. -/
def regSet (m : Registry) (k : Int) (v : ThreadInfo) : Registry :=
  match m with
  | [] => [(k, v)]
  | (k', v') :: rest => if k' == k then (k, v) :: rest else (k', v') :: regSet rest k v

theorem regFind_regSet_self (m : Registry) (k : Int) (v : ThreadInfo) :
    regFind (regSet m k v) k = some v := by
  induction m with
  | nil => simp [regSet, regFind]
  | cons p rest ih =>
    by_cases h : p.1 = k
    · simp [regSet, regFind, h]
    · simp [regSet, regFind, h, ih]

theorem regFind_regSet_other (m : Registry) (k k' : Int) (v : ThreadInfo)
    (h : k' ≠ k) : regFind (regSet m k v) k' = regFind m k' := by
  induction m with
  | nil => simp [regSet, regFind, Ne.symm h]
  | cons p rest ih =>
    by_cases hk : p.1 = k
    · simp [regSet, regFind, hk, Ne.symm h]
    · by_cases hk' : p.1 = k'
      · simp [regSet, regFind, hk, hk', h]
      · simp [regSet, regFind, hk, hk', ih]

/-- Translation of `handle_thread_creation` (main.cpp, lines 83-162).
`get_thread_name` (the `/proc/<tid>/comm` snapshot) and the current time
are oracles.  The mutation order of the C++ (in-place updates through the
`existing` reference) is reproduced by re-reading the map between steps. -/
def handle_thread_creation (get_thread_name : Int → String) (now : Nat)
    (parent_pid thread_id : Int) ( is_process : Bool) (m : Registry) : Registry :=
  match regFind m thread_id with
  | some existing =>
    if existing.active then m
    else
      let m1 := regSet m thread_id
        { existing with active := true, exit_status := -1, creation_time := now }
      if existing.parent_pid ≠ parent_pid then
        let m2 :=
          if existing.parent_pid ≠ 0 then
            match regFind m1 existing.parent_pid with
            | some old_parent =>
              regSet m1 existing.parent_pid
                (if is_process then
                  { old_parent with child_processes :=
                      old_parent.child_processes.filter (fun c => c ≠ thread_id) }
                 else
                  { old_parent with child_threads :=
                      old_parent.child_threads.filter (fun c => c ≠ thread_id) })
            | none => m1
          else m1
        match regFind m2 thread_id with
        | some r => regSet m2 thread_id { r with parent_pid := parent_pid }
        | none => m2
      else m1
  | none =>
    let info : ThreadInfo :=
      { thread_id := thread_id, parent_pid := parent_pid,
        name := get_thread_name thread_id, active := true,
        process_type := if is_process then .PROCESS else .THREAD,
        child_processes := [], child_threads := [],
        creation_time := now, exit_status := -1 }
    let m1 :=
      if parent_pid ≠ 0 then
        match regFind m parent_pid with
        | some p =>
          if is_process then
            regSet m parent_pid
              { p with child_processes := p.child_processes ++ [thread_id] }
          else
            regSet m parent_pid
              { p with child_threads := p.child_threads ++ [thread_id] }
        | none =>
          regSet m parent_pid
            { thread_id := parent_pid, parent_pid := 0,
              name := get_thread_name parent_pid, active := true,
              process_type := .PROCESS,
              child_processes := if is_process then [thread_id] else [],
              child_threads := if is_process then [] else [thread_id],
              creation_time := now, exit_status := -1 }
      else m
    regSet m1 thread_id info

/-- C10: calling `handle_thread_creation` for a TID whose record exists
and is active leaves the whole registry unchanged, even when the
supplied parent differs from the stored parent. -/
theorem C10_active_record_noop (get_thread_name : Int → String) (now : Nat)
    (parent_pid thread_id : Int) (b : Bool) (m : Registry) (r : ThreadInfo)
    (hr : regFind m thread_id = some r) (hact : r.active = true) :
    handle_thread_creation get_thread_name now parent_pid thread_id b m = m := by
  unfold handle_thread_creation
  rw [hr]
  simp [hact]

/-- A concrete active record used by the C10 witness. -/
def c10_record : ThreadInfo :=
  { thread_id := 7, parent_pid := 3, name := "w", active := true,
    process_type := .PROCESS, child_processes := [], child_threads := [],
    creation_time := 0, exit_status := -1 }

/-- Witness for C10: an active record with a different stored parent. -/
theorem C10_active_record_noop_witness :
    regFind [(7, c10_record)] 7 = some c10_record ∧ c10_record.active = true ∧
    handle_thread_creation (fun _ => "x") 5 9 7 true [(7, c10_record)] =
      [(7, c10_record)] :=
  ⟨by decide, by decide,
   C10_active_record_noop (fun _ => "x") 5 9 7 true [(7, c10_record)] c10_record
    (by decide) (by decide)⟩

/-- Old parent of the reactivated record in the C1 scenario: its
`child_processes` list holds the inactive child 7. -/
def c1_p5 : ThreadInfo :=
  { thread_id := 5, parent_pid := 0, name := "p5", active := true,
    process_type := .PROCESS, child_processes := [7], child_threads := [],
    creation_time := 0, exit_status := -1 }

/-- New parent in the C1 scenario: both child lists empty. -/
def c1_p9 : ThreadInfo :=
  { thread_id := 9, parent_pid := 0, name := "p9", active := true,
    process_type := .PROCESS, child_processes := [], child_threads := [],
    creation_time := 0, exit_status := -1 }

/-- The inactive record being reactivated in the C1 scenario. -/
def c1_t7 : ThreadInfo :=
  { thread_id := 7, parent_pid := 5, name := "t7", active := false,
    process_type := .PROCESS, child_processes := [], child_threads := [],
    creation_time := 0, exit_status := 0 }

/-- Registry before the C1 reactivation call. -/
def c1_m : Registry := [(5, c1_p5), (9, c1_p9), (7, c1_t7)]

/-- Registry after `on_create(9, 7, process)` reactivates record 7. -/
def c1_res : Registry := handle_thread_creation (fun _ => "n") 1 9 7 true c1_m

/-- C1 counterexample: reactivating inactive record 7 with new parent 9
reparents it (parent field becomes 9) and removes it from the old
parent 5's child list, but does NOT add it to the new parent 9's child
lists — after the call it appears in no parent's child list, refuting
the claim that it is present in the new parent's child list matching
its kind. -/
theorem C1_counterexample :
    (regFind c1_res 7).map ThreadInfo.active = some true ∧
    (regFind c1_res 7).map ThreadInfo.parent_pid = some 9 ∧
    (regFind c1_res 5).map ThreadInfo.child_processes = some [] ∧
    (regFind c1_res 9).map ThreadInfo.child_processes = some [] ∧
    (regFind c1_res 9).map ThreadInfo.child_threads = some [] := by decide

/-- C1 amended: reactivating an existing inactive record with a
different supplied parent reactivates it (exit status reset, timestamp
refreshed), updates its parent field and removes the TID from the old
parent's child list selected by the call's kind argument — but the
record is not inserted into the new parent's child lists, which are
left unchanged. -/
theorem C1_reactivation_no_new_parent_link (g : Int → String) (now : Nat)
    (parent tid : Int) (b : Bool) (m : Registry) (r op : ThreadInfo)
    (hr : regFind m tid = some r) (hact : r.active = false)
    (hne : r.parent_pid ≠ parent) (hz : r.parent_pid ≠ 0)
    (hop : regFind m r.parent_pid = some op)
    (hto : tid ≠ r.parent_pid) (hpo : parent ≠ r.parent_pid)
    (hpt : parent ≠ tid) :
    regFind (handle_thread_creation g now parent tid b m) tid =
      some { r with active := true, exit_status := -1, creation_time := now,
                    parent_pid := parent } ∧
    regFind (handle_thread_creation g now parent tid b m) r.parent_pid =
      some (if b then
        { op with child_processes :=
            op.child_processes.filter (fun c => c ≠ tid) }
      else
        { op with child_threads :=
            op.child_threads.filter (fun c => c ≠ tid) }) ∧
    regFind (handle_thread_creation g now parent tid b m) parent =
      regFind m parent := by
  have hto' : r.parent_pid ≠ tid := Ne.symm hto
  have h1 : regFind (regSet m tid
      { r with active := true, exit_status := -1, creation_time := now })
      r.parent_pid = some op := by
    rw [regFind_regSet_other _ _ _ _ hto']; exact hop
  have h2 : regFind (regSet m tid
      { r with active := true, exit_status := -1, creation_time := now }) tid =
      some { r with active := true, exit_status := -1, creation_time := now } :=
    regFind_regSet_self _ _ _
  have key : handle_thread_creation g now parent tid b m =
      regSet (regSet (regSet m tid
        { r with active := true, exit_status := -1, creation_time := now })
        r.parent_pid
        (if b then
          { op with child_processes :=
              op.child_processes.filter (fun c => c ≠ tid) }
        else
          { op with child_threads :=
              op.child_threads.filter (fun c => c ≠ tid) }))
        tid
        { r with active := true, exit_status := -1, creation_time := now,
                 parent_pid := parent } := by
    unfold handle_thread_creation
    rw [hr]
    simp only [hact, Bool.false_eq_true, if_false]
    rw [if_pos hne, if_pos hz, h1]
    dsimp only
    rw [regFind_regSet_other _ _ _ _ hto, h2]
  refine ⟨?_, ?_, ?_⟩
  · rw [key, regFind_regSet_self]
  · rw [key, regFind_regSet_other _ _ _ _ hto', regFind_regSet_self]
  · rw [key, regFind_regSet_other _ _ _ _ hpt,
      regFind_regSet_other _ _ _ _ hpo, regFind_regSet_other _ _ _ _ hpt]

/-- Witness for the amended C1 at the concrete scenario of the
counterexample registry. -/
theorem C1_reactivation_no_new_parent_link_witness :
    regFind (handle_thread_creation (fun _ => "n") 1 9 7 true c1_m) 7 =
      some { c1_t7 with active := true, exit_status := -1, creation_time := 1,
                        parent_pid := 9 } ∧
    regFind (handle_thread_creation (fun _ => "n") 1 9 7 true c1_m)
        c1_t7.parent_pid =
      some { c1_p5 with child_processes :=
          c1_p5.child_processes.filter (fun c => c ≠ 7) } ∧
    regFind (handle_thread_creation (fun _ => "n") 1 9 7 true c1_m) 9 =
      regFind c1_m 9 := by
  have h := C1_reactivation_no_new_parent_link (fun _ => "n") 1 9 7 true c1_m
    c1_t7 c1_p5 (by decide) (by decide) (by decide) (by decide) (by decide)
    (by decide) (by decide) (by decide)
  exact ⟨h.1, h.2.1, h.2.2⟩

/-- `SIGTRAP` (signal 5). -/
def SIGTRAP : Nat := 5

/-- `PTRACE_EVENT_FORK`. -/
def PTRACE_EVENT_FORK : Nat := 1

/-- `PTRACE_EVENT_VFORK`. -/
def PTRACE_EVENT_VFORK : Nat := 2

/-- `PTRACE_EVENT_CLONE`. -/
def PTRACE_EVENT_CLONE : Nat := 3

/-- `CLONE_THREAD` (0x10000), the thread-group-sharing clone flag. -/
def CLONE_THREAD : Nat := 65536

/-- x86_64 `SYS_clone`. -/
def SYS_clone : Nat := 56

/-- x86_64 `SYS_fork`. -/
def SYS_fork : Nat := 57

/-- x86_64 `SYS_vfork`. -/
def SYS_vfork : Nat := 58

/-- `status >> 8 == (SIGTRAP | (PTRACE_EVENT_FORK << 8))` (main.cpp 713). -/
def isForkEvent (status : Nat) : Bool :=
  status / 256 == (SIGTRAP ||| (PTRACE_EVENT_FORK <<< 8))

/-- `status >> 8 == (SIGTRAP | (PTRACE_EVENT_VFORK << 8))` (main.cpp 714). -/
def isVforkEvent (status : Nat) : Bool :=
  status / 256 == (SIGTRAP ||| (PTRACE_EVENT_VFORK <<< 8))

/-- `status >> 8 == (SIGTRAP | (PTRACE_EVENT_CLONE << 8))` (main.cpp 715). -/
def isCloneEvent (status : Nat) : Bool :=
  status / 256 == (SIGTRAP ||| (PTRACE_EVENT_CLONE <<< 8))

/-- Translation of the fork/vfork/clone ptrace-event branch of the main
loop (main.cpp, lines 711-723): on one of the three creation events,
the new TID (already read from the event-message channel) is registered
with `is_process` decided solely by which event bit fired — fork/vfork
give a process, a clone event gives `is_process = false` without
consulting any clone-flags register. -/
def handle_creation_event (get_thread_name : Int → String) (now : Nat)
    (waited_pid new_pid : Int) (status : Nat) (m : Registry) : Registry :=
  if isForkEvent status || isVforkEvent status || isCloneEvent status then
    handle_thread_creation get_thread_name now waited_pid new_pid
      (isForkEvent status || isVforkEvent status) m
  else m

/-- Translation of the syscall-entry classification (main.cpp, lines
287-288): at a fork/vfork/clone syscall entry the creation is a process
when the syscall is fork/vfork, or a clone whose first flag register has
`CLONE_THREAD` clear. -/
def clone_entry_is_process (orig_rax rdi : Nat) : Bool :=
  (orig_rax == SYS_fork || orig_rax == SYS_vfork) ||
  ((orig_rax == SYS_clone) && (rdi &&& CLONE_THREAD) == 0)

/-- Root record used in the C2 scenario. -/
def c2_root : ThreadInfo :=
  { thread_id := 1, parent_pid := 0, name := "root", active := true,
    process_type := .PROCESS, child_processes := [], child_threads := [],
    creation_time := 0, exit_status := -1 }

/-- C2 counterexample: a `PTRACE_EVENT_CLONE` stop (status 197888, i.e.
`(SIGTRAP | (PTRACE_EVENT_CLONE << 8)) << 8`) whose syscall-entry clone
flags had `CLONE_THREAD` clear (rdi = 0) — the syscall-entry classifier
says "process", yet the event-message branch registers the new TID as a
THREAD: the event path never consults the thread-group-sharing flag. -/
theorem C2_counterexample :
    isCloneEvent 197888 = true ∧
    clone_entry_is_process SYS_clone 0 = true ∧
    (regFind (handle_creation_event (fun _ => "x") 0 1 2 197888 [(1, c2_root)])
        2).map ThreadInfo.process_type = some ProcessType.THREAD ∧
    ProcessType.THREAD ≠ ProcessType.PROCESS := by decide

theorem isCloneEvent_not_fork (status : Nat) (h : isCloneEvent status = true) :
    isForkEvent status = false ∧ isVforkEvent status = false := by
  unfold isCloneEvent at h
  unfold isForkEvent isVforkEvent
  have hs : status / 256 = SIGTRAP ||| (PTRACE_EVENT_CLONE <<< 8) := by
    simpa using h
  rw [hs]
  decide

/-- C2 amended: in the event-message branch, fork and vfork events
register the new TID (not previously in the registry) as a PROCESS,
while a clone event registers it as a THREAD unconditionally — the
thread-group-sharing flag captured at syscall entry is not consulted on
this path (it is only used by `clone_entry_is_process` in the separate
syscall-entry handler). -/
theorem C2_event_branch_kind (g : Int → String) (now : Nat)
    (waited_pid new_pid : Int) (status : Nat) (m : Registry)
    (hnew : regFind m new_pid = none) :
    (isCloneEvent status = true →
      (regFind (handle_creation_event g now waited_pid new_pid status m)
        new_pid).map ThreadInfo.process_type = some ProcessType.THREAD) ∧
    ((isForkEvent status = true ∨ isVforkEvent status = true) →
      (regFind (handle_creation_event g now waited_pid new_pid status m)
        new_pid).map ThreadInfo.process_type = some ProcessType.PROCESS) := by
  constructor
  · intro hc
    obtain ⟨hf, hv⟩ := isCloneEvent_not_fork status hc
    unfold handle_creation_event
    rw [hf, hv, hc]
    simp only [Bool.false_or, Bool.or_false, if_true]
    unfold handle_thread_creation
    rw [hnew]
    dsimp only
    rw [regFind_regSet_self]
    rfl
  · intro hfv
    have hor : (isForkEvent status || isVforkEvent status) = true := by
      rcases hfv with h | h <;> simp [h]
    unfold handle_creation_event
    rw [hor]
    simp only [Bool.true_or, if_true]
    unfold handle_thread_creation
    rw [hnew]
    dsimp only
    rw [regFind_regSet_self]
    rfl

/-- Witness for the amended C2: a clone event registers a THREAD and a
fork event (status 66816 = `(SIGTRAP | (PTRACE_EVENT_FORK << 8)) << 8`)
registers a PROCESS, from an empty prior record. -/
theorem C2_event_branch_kind_witness :
    regFind [((1 : Int), c2_root)] 2 = none ∧
    isCloneEvent 197888 = true ∧
    (regFind (handle_creation_event (fun _ => "x") 0 1 2 197888
        [(1, c2_root)]) 2).map ThreadInfo.process_type =
      some ProcessType.THREAD ∧
    isForkEvent 66816 = true ∧
    (regFind (handle_creation_event (fun _ => "x") 0 1 2 66816
        [(1, c2_root)]) 2).map ThreadInfo.process_type =
      some ProcessType.PROCESS :=
  ⟨by decide, by decide,
   (C2_event_branch_kind (fun _ => "x") 0 1 2 197888 [(1, c2_root)]
      (by decide)).1 (by decide),
   by decide,
   (C2_event_branch_kind (fun _ => "x") 0 1 2 66816 [(1, c2_root)]
      (by decide)).2 (Or.inl (by decide))⟩

/-- State of the supervisor main loop relevant to syscall-stop handling:
the single `bool in_syscall` declared at main.cpp line 620, plus the
trace of TIDs on which the syscall classifier (`handle_syscall_entry`)
has been invoked, in order. -/
structure LoopState where
  in_syscall : Bool
  invoked : List Int
deriving DecidableEq, Repr

/-- Translation of the non-event syscall-stop handling (main.cpp, lines
832-835): the classifier runs when the SHARED `in_syscall` flag is
false, and the flag is then toggled — regardless of which tracee the
stop came from. -/
def process_stop (s : LoopState) (tid : Int) : LoopState :=
  { in_syscall := !s.in_syscall,
    invoked := if s.in_syscall then s.invoked else s.invoked ++ [tid] }

/-- Running the main loop over a merged stream of non-event syscall
stops (each element is the TID that stopped). -/
def run_loop (stops : List Int) : LoopState :=
  stops.foldl process_stop { in_syscall := false, invoked := [] }

/-- Modelled from the spec: the per-tracee flip-flop discipline the
claim describes — each tracee has its own `in_syscall` bit and the
classifier is invoked exactly on the entry halves (bit flips from false
to true) of that tracee's own stop stream.  The first state component
is the set of TIDs whose bit is currently true. -/
def spec_stop_step (st : List Int × List Int) (tid : Int) :
    List Int × List Int :=
  if tid ∈ st.1 then (st.1.filter (fun x => x ≠ tid), st.2)
  else (tid :: st.1, st.2 ++ [tid])

/-- Modelled from the spec: classifier invocations under per-tracee
flip-flops, over the same merged stop stream. -/
def spec_invocations (stops : List Int) : List Int :=
  (stops.foldl spec_stop_step ([], [])).2

/-- C3 counterexample: two tracees 1 and 2 each report their first
syscall stop.  Under per-tracee flip-flops both stops are entry halves,
so the classifier would run on both (`spec_invocations = [1, 2]`), but
the code's single shared flag makes tracee 2's first stop look like an
exit half: the classifier runs only on tracee 1's stop. -/
theorem C3_counterexample :
    (run_loop [1, 2]).invoked = [1] ∧
    spec_invocations [1, 2] = [1, 2] ∧
    (run_loop [1, 2]).invoked ≠ spec_invocations [1, 2] := by decide

/-- Alternate selection: with `keep = true` take the 1st, 3rd, 5th, ...
elements of the list. -/
def alternateTake (keep : Bool) : List Int → List Int
  | [] => []
  | t :: rest =>
    if keep then t :: alternateTake false rest else alternateTake true rest

theorem run_loop_aux (stops : List Int) :
    ∀ (b : Bool) (acc : List Int),
      (stops.foldl process_stop { in_syscall := b, invoked := acc }).invoked =
        acc ++ alternateTake (!b) stops := by
  induction stops with
  | nil => intro b acc; simp [alternateTake]
  | cons t rest ih =>
    intro b acc
    cases b with
    | false =>
      simp only [List.foldl_cons, process_stop, alternateTake]
      rw [ih]
      simp
    | true =>
      simp only [List.foldl_cons, process_stop, alternateTake]
      rw [ih]
      simp

/-- C3 amended: the supervisor keeps a SINGLE `in_syscall` flip-flop
shared by all tracees; over any merged stream of non-event syscall
stops the classifier is invoked exactly on the odd-numbered stops of
the merged stream (1st, 3rd, 5th, ...), independently of which tracee
each stop belongs to. -/
theorem C3_shared_flipflop (stops : List Int) :
    (run_loop stops).invoked = alternateTake true stops := by
  have h := run_loop_aux stops false []
  simpa [run_loop] using h

/-- Scan one word of tracee memory as `read_process_string` does
(main.cpp, lines 251-256): copy bytes until a NUL byte; return the
bytes copied before the NUL and whether a NUL was seen. -/
def scanWord : List Nat → List Nat × Bool
  | [] => ([], false)
  | b :: rest =>
    if b == 0 then ([], true)
    else
      let r := scanWord rest
      (b :: r.1, r.2)

/-- The word-read loop of `read_process_string` (main.cpp, lines
244-258): while `i < sizeof(buffer) - sizeof(long)` (4096 - 8 = 4088),
peek one word at `addr + i`; on peek failure break and return the bytes
accumulated SO FAR; on a NUL return the accumulated bytes; otherwise
continue at `i + 8`.  `peek` models `ptrace(PTRACE_PEEKDATA, ...)`
returning the 8 bytes of a word, or `none` on failure (errno set).
`fuel` only bounds the recursion and never binds before the `i < 4088`
check does (at most 511 iterations occur). -/
def read_words (peek : Nat → Option (List Nat)) (addr : Nat) :
    Nat → Nat → List Nat → List Nat
  | _, 0, acc => acc
  | i, fuel + 1, acc =>
    if i < 4088 then
      match peek (addr + i) with
      | none => acc
      | some w =>
        let s := scanWord w
        if s.2 then acc ++ s.1
        else read_words peek addr (i + 8) fuel (acc ++ s.1)
    else acc

/-- Translation of `read_process_string` (main.cpp, lines 236-261),
returning the byte list of the produced `std::string` (the bytes up to
the first NUL written into the buffer). -/
def read_process_string (peek : Nat → Option (List Nat)) (addr : Nat) :
    List Nat :=
  read_words peek addr 0 600 []

/-- Peek oracle for the C6 counterexample: the word at address 0 reads
eight 0x61 bytes (no NUL), every later read fails. -/
def c6_peek : Nat → Option (List Nat) :=
  fun a => if a == 0 then some [97, 97, 97, 97, 97, 97, 97, 97] else none

/-- C6 counterexample: the first word of the string reads successfully
(eight non-NUL bytes), the second word read fails — the tracee's memory
became unreadable before any NUL terminator was found — yet
`read_process_string` returns the non-empty partial string "aaaaaaaa"
rather than the empty string. -/
theorem C6_counterexample :
    read_process_string c6_peek 0 = [97, 97, 97, 97, 97, 97, 97, 97] ∧
    read_process_string c6_peek 0 ≠ [] ∧
    c6_peek 8 = none := by decide

/-- C6 amended: `read_process_string` never throws (it is a total
function) and returns the EMPTY string exactly when the very first
word-read fails; a failure after at least one successfully read word
returns the partial bytes accumulated so far (see the counterexample). -/
theorem C6_first_peek_failure_empty (peek : Nat → Option (List Nat))
    (addr : Nat) (h : peek addr = none) :
    read_process_string peek addr = [] := by
  unfold read_process_string
  show read_words peek addr 0 (599 + 1) [] = []
  unfold read_words
  have h0 : peek (addr + 0) = none := by simpa using h
  rw [if_pos (by omega : (0 : Nat) < 4088), h0]

/-- Witness for the amended C6: an always-failing peek yields the empty
string. -/
theorem C6_first_peek_failure_empty_witness :
    (fun _ : Nat => (none : Option (List Nat))) 0 = none ∧
    read_process_string (fun _ => none) 0 = [] :=
  ⟨rfl, C6_first_peek_failure_empty (fun _ => none) 0 rfl⟩

/-- Translation of `struct FileOperation` (main.cpp, lines 55-62). -/
structure FileOperation where
  pid : Int
  path : String
  sequence : Nat
  thread_id : Int
  thread_name : String
  is_actual_open : Bool
deriving DecidableEq, Repr

/-- What a successful `stat` reveals about a path.  The C++ at main.cpp
line 348 only checks that `stat` returned 0; it never inspects the mode
bits, in particular whether the path is a directory. -/
structure StatInfo where
  is_dir : Bool
deriving DecidableEq, Repr

/-- The thread-name lookup inside `handle_syscall_entry` (main.cpp,
lines 357-363): take the name from the registry, registering the pid
first (parent = pid, default kind thread) when it is unknown. -/
def lookup_thread_name (get_thread_name : Int → String) (now : Nat)
    (m : Registry) (pid : Int) : String × Registry :=
  match regFind m pid with
  | some ti => (ti.name, m)
  | none =>
    let m' := handle_thread_creation get_thread_name now pid pid false m
    (match regFind m' pid with
     | some ti => ti.name
     | none => "", m')

/-- Translation of the file-operation branch of `handle_syscall_entry`
(main.cpp, lines 331-371), starting from the extracted `filepath`
string: normalize, apply the base-directory filter (only when filtering
is enabled and the base is non-empty), skip execve lookups, check
existence with `stat`, and append a `FileOperation` whose sequence
number is `operations.size() + 1`. -/
def record_file_op (normalize_path : String → String) (getcwd : Option String)
    (stat : String → Option StatInfo) (get_thread_name : Int → String)
    (now : Nat) (disable_directory_filtering : Bool) (base_dir : String)
    (pid : Int) ( is_execve : Bool) (filepath : String)
    (operations : List FileOperation) (m : Registry) :
    List FileOperation × Registry :=
  if filepath == "" then (operations, m)
  else
    let normalized_path := normalize_path filepath
    if (!disable_directory_filtering && !(base_dir == "")) &&
        !(is_within_directory disable_directory_filtering normalize_path getcwd
          normalized_path base_dir) then (operations, m)
    else if is_execve then (operations, m)
    else
      match stat normalized_path with
      | some _ =>
        let tn := lookup_thread_name get_thread_name now m pid
        let op : FileOperation :=
          { pid := pid, path := normalized_path,
            sequence := operations.length + 1, thread_id := pid,
            thread_name := tn.1, is_actual_open := true }
        (operations ++ [op], tn.2)
      | none => (operations, m)

/-- Stat oracle for the C4 counterexample: "/base/sub" exists and IS A
DIRECTORY; nothing else exists. -/
def c4_stat : String → Option StatInfo :=
  fun p => if p == "/base/sub" then some { is_dir := true } else none

/-- Registry entry for the C4 scenario. -/
def c4_root : ThreadInfo :=
  { thread_id := 1, parent_pid := 0, name := "n", active := true,
    process_type := .PROCESS, child_processes := [], child_threads := [],
    creation_time := 0, exit_status := -1 }

/-- C4 counterexample: an open of "/base/sub", a path inside the base
directory that `stat` reports as existing but as a DIRECTORY, is
nevertheless appended to the event log — the code checks only that
`stat` succeeds, never that the path is a file rather than a directory,
refuting the claim that every logged path corresponds to a file (not a
directory). -/
theorem C4_counterexample :
    ((record_file_op (fun s => s) none c4_stat (fun _ => "n") 0 false "/base"
        1 false "/base/sub" [] [(1, c4_root)]).1).map FileOperation.path =
      ["/base/sub"] ∧
    c4_stat "/base/sub" = some { is_dir := true } := by decide

/-- C4 amended: with filtering enabled and a non-empty base directory,
an open/openat classification appends an event exactly when the final
normalized path passes the base-directory filter AND `stat` confirms
the path exists at observation time — whether file or directory, since
the mode is never inspected; otherwise the event log is unchanged. -/
theorem C4_filter_and_stat_decide_append (normalize_path : String → String)
    (getcwd : Option String) (stat : String → Option StatInfo)
    (get_thread_name : Int → String) (now : Nat) (base_dir : String)
    (pid : Int) (filepath : String) (operations : List FileOperation)
    (m : Registry) (hbase : (base_dir == "") = false)
    (hfp : (filepath == "") = false) :
    record_file_op normalize_path getcwd stat get_thread_name now false
        base_dir pid false filepath operations m =
      (if is_within_directory false normalize_path getcwd
            (normalize_path filepath) base_dir &&
          (stat (normalize_path filepath)).isSome then
        operations ++
          [{ pid := pid, path := normalize_path filepath,
             sequence := operations.length + 1, thread_id := pid,
             thread_name := (lookup_thread_name get_thread_name now m pid).1,
             is_actual_open := true }]
      else operations,
      if is_within_directory false normalize_path getcwd
            (normalize_path filepath) base_dir &&
          (stat (normalize_path filepath)).isSome then
        (lookup_thread_name get_thread_name now m pid).2
      else m) := by
  unfold record_file_op
  simp only [hfp, hbase, Bool.not_false, Bool.and_self, Bool.true_and,
    Bool.false_eq_true, if_false]
  cases hw : is_within_directory false normalize_path getcwd
      (normalize_path filepath) base_dir with
  | false => simp [hw]
  | true =>
    cases hs : stat (normalize_path filepath) with
    | none => simp [hs]
    | some si => simp [hs]

/-- Witness for the amended C4 at the counterexample's concrete input:
the filter passes, stat succeeds, and the event is appended with
sequence number 1. -/
theorem C4_filter_and_stat_decide_append_witness :
    (("/base" : String) == "") = false ∧ (("/base/sub" : String) == "") = false ∧
    record_file_op (fun s => s) none c4_stat (fun _ => "n") 0 false "/base" 1
        false "/base/sub" [] [(1, c4_root)] =
      ([{ pid := 1, path := "/base/sub", sequence := 1, thread_id := 1,
           thread_name := "n", is_actual_open := true }], [(1, c4_root)]) :=
  ⟨by decide, by decide,
   C4_filter_and_stat_decide_append (fun s => s) none c4_stat
    (fun _ => "n") 0 "/base" 1 "/base/sub" [] [(1, c4_root)]
    (by decide) (by decide)⟩

/-- The whole-trace accumulation of `operations`: each classified
syscall input is a triple (pid, whether it is an execve lookup, the
extracted filepath); the supervisor starts from an empty event log
(main.cpp, line 591) and threads the registry through. -/
def run_trace (normalize_path : String → String) (getcwd : Option String)
    (stat : String → Option StatInfo) (get_thread_name : Int → String)
    (now : Nat) (disable_directory_filtering : Bool) (base_dir : String)
    (m0 : Registry) (inputs : List (Int × Bool × String)) :
    List FileOperation × Registry :=
  inputs.foldl
    (fun acc inp =>
      record_file_op normalize_path getcwd stat get_thread_name now
        disable_directory_filtering base_dir inp.1 inp.2.1 inp.2.2
        acc.1 acc.2)
    ([], m0)

theorem record_file_op_fst_cases (normalize_path : String → String)
    (getcwd : Option String) (stat : String → Option StatInfo)
    (get_thread_name : Int → String) (now : Nat) (dflag : Bool)
    (base_dir : String) (pid : Int) (b : Bool) (filepath : String)
    (operations : List FileOperation) (m : Registry) :
    (record_file_op normalize_path getcwd stat get_thread_name now dflag
        base_dir pid b filepath operations m).1 = operations ∨
    ∃ op : FileOperation, op.sequence = operations.length + 1 ∧
      (record_file_op normalize_path getcwd stat get_thread_name now dflag
        base_dir pid b filepath operations m).1 = operations ++ [op] := by
  unfold record_file_op
  by_cases h1 : (filepath == "") = true
  · simp [h1]
  · simp only [h1, Bool.false_eq_true, if_false]
    by_cases h2 : ((!dflag && !(base_dir == "")) &&
        !(is_within_directory dflag normalize_path getcwd
          (normalize_path filepath) base_dir)) = true
    · simp [h2]
    · simp only [h2, Bool.false_eq_true, if_false]
      by_cases h3 : b = true
      · simp [h3]
      · simp only [h3, Bool.false_eq_true, if_false]
        cases hs : stat (normalize_path filepath) with
        | none => simp
        | some si =>
          right
          refine ⟨_, ?_, rfl⟩
          rfl

theorem run_trace_seq_aux (normalize_path : String → String)
    (getcwd : Option String) (stat : String → Option StatInfo)
    (get_thread_name : Int → String) (now : Nat) (dflag : Bool)
    (base_dir : String) (inputs : List (Int × Bool × String)) :
    ∀ (operations : List FileOperation) (m : Registry),
      operations.map FileOperation.sequence =
        List.range' 1 operations.length →
      ((inputs.foldl
        (fun acc inp =>
          record_file_op normalize_path getcwd stat get_thread_name now
            dflag base_dir inp.1 inp.2.1 inp.2.2 acc.1 acc.2)
        (operations, m)).1).map FileOperation.sequence =
      List.range' 1 ((inputs.foldl
        (fun acc inp =>
          record_file_op normalize_path getcwd stat get_thread_name now
            dflag base_dir inp.1 inp.2.1 inp.2.2 acc.1 acc.2)
        (operations, m)).1).length := by
  induction inputs with
  | nil => intro operations m h; simpa using h
  | cons inp rest ih =>
    intro operations m h
    simp only [List.foldl_cons]
    have hstep := record_file_op_fst_cases normalize_path getcwd stat
      get_thread_name now dflag base_dir inp.1 inp.2.1 inp.2.2 operations m
    set res := record_file_op normalize_path getcwd stat get_thread_name now
      dflag base_dir inp.1 inp.2.1 inp.2.2 operations m with hres
    have hok : res.1.map FileOperation.sequence =
        List.range' 1 res.1.length := by
      rcases hstep with heq | ⟨op, hop, heq⟩
      · rw [heq]; exact h
      · rw [heq, List.map_append, List.length_append, h]
        simp [hop, List.range'_concat, Nat.add_comm]
    have := ih res.1 res.2 hok
    simpa using this

/-- C5: over any sequence of classified inputs, starting from the empty
event log, the sequence numbers of the accumulated event log are
exactly 1..N in append order (`List.range' 1 N` is `[1, 2, ..., N]`). -/
theorem C5_sequence_numbers_contiguous (normalize_path : String → String)
    (getcwd : Option String) (stat : String → Option StatInfo)
    (get_thread_name : Int → String) (now : Nat)
    (disable_directory_filtering : Bool) (base_dir : String) (m0 : Registry)
    (inputs : List (Int × Bool × String)) :
    ((run_trace normalize_path getcwd stat get_thread_name now
        disable_directory_filtering base_dir m0 inputs).1).map
      FileOperation.sequence =
    List.range' 1 ((run_trace normalize_path getcwd stat get_thread_name now
        disable_directory_filtering base_dir m0 inputs).1).length := by
  unfold run_trace
  exact run_trace_seq_aux normalize_path getcwd stat get_thread_name now
    disable_directory_filtering base_dir inputs [] m0 (by simp)

/-- A node of the directory tree, from `class DirectoryNode`
(directory_tree.hpp, lines 16-28): name, full path, is-file flag,
sequence number, thread id, thread name, and the ordered children map
(modelled as an association list with unique keys).  The C++ leaves
`thread_id` uninitialized in the constructor; the model uses 0. -/
inductive DirNode where
  | mk (name full_path : String) (is_file : Bool) (sequence_number : Int)
      (thread_id : Int) (thread_name : String)
      (children : List (String × DirNode))

def DirNode.name : DirNode → String
  | .mk n _ _ _ _ _ _ => n

def DirNode.full_path : DirNode → String
  | .mk _ fp _ _ _ _ _ => fp

def DirNode.is_file : DirNode → Bool
  | .mk _ _ f _ _ _ _ => f

def DirNode.sequence_number : DirNode → Int
  | .mk _ _ _ s _ _ _ => s

def DirNode.thread_id : DirNode → Int
  | .mk _ _ _ _ t _ _ => t

def DirNode.thread_name : DirNode → String
  | .mk _ _ _ _ _ tn _ => tn

def DirNode.children : DirNode → List (String × DirNode)
  | .mk _ _ _ _ _ _ ch => ch

/-- `children.find(k)` on the node's children map. -/
def childFind (ch : List (String × DirNode)) (k : String) : Option DirNode :=
  match ch with
  | [] => none
  | (k', v) :: rest => if k' == k then some v else childFind rest k

/-- `children[k] = v` on the node's children map: update in place when
the key exists, append otherwise. -/
def childSet (ch : List (String × DirNode)) (k : String) (v : DirNode) :
    List (String × DirNode) :=
  match ch with
  | [] => [(k, v)]
  | (k', v') :: rest =>
    if k' == k then (k, v) :: rest else (k', v') :: childSet rest k v

/-- Split a path into its non-empty components, as the loop over
`std::filesystem::path` components does (directory_tree.hpp, lines
50-55: the root "/" and empty components are skipped). -/
def splitAux : List Char → List Char → List String
  | [], acc => if acc == [] then [] else [String.mk acc.reverse]
  | c :: rest, acc =>
    if c == '/' then
      if acc == [] then splitAux rest []
      else String.mk acc.reverse :: splitAux rest []
    else splitAux rest (c :: acc)

def splitComponents (p : String) : List String := splitAux p.data []

/-- `(std::filesystem::path(current_path) / comp).string()` for an
absolute `current_path` (directory_tree.hpp, line 69). -/
def pathJoin (p c : String) : String :=
  if p == "/" then p ++ c else p ++ "/" ++ c

/-- The metadata update applied to the last component
(directory_tree.hpp, lines 83-87): mark as file and overwrite the
sequence number, thread id and thread name. -/
def setFileMeta (n : DirNode) (sequence thread_id : Int)
    (thread_name : String) : DirNode :=
  match n with
  | .mk nm fp _ _ _ _ ch => .mk nm fp true sequence thread_id thread_name ch

/-- The component-processing loop of `DirectoryTree::insert_file`
(directory_tree.hpp, lines 63-91): walk the components from the current
node, creating a missing child (marked as a file exactly when it is the
last component) and, on the last component, overwriting the file flag
and touch metadata. -/
def insertComps (sequence thread_id : Int) (thread_name : String) :
    DirNode → String → List String → DirNode
  | node, _, [] => node
  | .mk nm fp isf s t tn ch, cur, c :: rest =>
    let cur' := pathJoin cur c
    let child0 :=
      match childFind ch c with
      | some existing => existing
      | none => DirNode.mk c cur' (rest == []) (-1) 0 "" []
    let child1 := insertComps sequence thread_id thread_name child0 cur' rest
    let child2 :=
      if rest == [] then setFileMeta child1 sequence thread_id thread_name
      else child1
    DirNode.mk nm fp isf s t tn (childSet ch c child2)

/-- Translation of `DirectoryTree::insert_file` (directory_tree.hpp,
lines 34-92): normalize the path (oracle), split into components and
fold them into the tree starting from the root with current path "/". -/
def insert_file (normalize_path : String → String) (root : DirNode)
    (path : String) (sequence thread_id : Int) (thread_name : String) :
    DirNode :=
  insertComps sequence thread_id thread_name root "/"
    (splitComponents (normalize_path path))

mutual

/-- Erase all touch metadata, keeping the structure (names, full paths,
file flags, children keys and order). -/
def eraseMeta : DirNode → DirNode
  | .mk nm fp isf _ _ _ ch => .mk nm fp isf 0 0 "" (eraseMetaChildren ch)

/-- `eraseMeta` mapped over a children list. -/
def eraseMetaChildren :
    List (String × DirNode) → List (String × DirNode)
  | [] => []
  | (k, v) :: rest => (k, eraseMeta v) :: eraseMetaChildren rest

end

theorem childFind_childSet_self (ch : List (String × DirNode)) (k : String)
    (v : DirNode) : childFind (childSet ch k v) k = some v := by
  induction ch with
  | nil => simp [childSet, childFind]
  | cons p rest ih =>
    by_cases h : p.1 = k
    · simp [childSet, childFind, h]
    · simp [childSet, childFind, h, ih]

theorem childSet_childSet (ch : List (String × DirNode)) (k : String)
    (v1 v2 : DirNode) : childSet (childSet ch k v1) k v2 = childSet ch k v2 := by
  induction ch with
  | nil => simp [childSet]
  | cons p rest ih =>
    by_cases h : p.1 = k
    · simp [childSet, h]
    · simp [childSet, h, ih]

theorem setFileMeta_setFileMeta (n : DirNode) (s1 t1 : Int) (n1 : String)
    (s2 t2 : Int) (n2 : String) :
    setFileMeta (setFileMeta n s1 t1 n1) s2 t2 n2 = setFileMeta n s2 t2 n2 := by
  cases n; rfl

theorem insertComps_twice (s1 t1 : Int) (n1 : String) (s2 t2 : Int)
    (n2 : String) :
    ∀ (comps : List String) (node : DirNode) (cur : String),
      insertComps s2 t2 n2 (insertComps s1 t1 n1 node cur comps) cur comps =
        insertComps s2 t2 n2 node cur comps := by
  intro comps
  induction comps with
  | nil => intro node cur; simp [insertComps]
  | cons c rest ih =>
    intro node cur
    cases node with
    | mk nm fp isf s t tn ch =>
      cases rest with
      | nil =>
        simp [insertComps, childFind_childSet_self, childSet_childSet,
          setFileMeta_setFileMeta]
      | cons c2 r2 =>
        simp [insertComps, childFind_childSet_self, childSet_childSet, ih]

theorem eraseMetaChildren_childSet (ch : List (String × DirNode)) (k : String)
    (x y : DirNode) (h : eraseMeta x = eraseMeta y) :
    eraseMetaChildren (childSet ch k x) = eraseMetaChildren (childSet ch k y) := by
  induction ch with
  | nil => simp [childSet, eraseMetaChildren, h]
  | cons p rest ih =>
    by_cases hk : p.1 = k
    · simp [childSet, eraseMetaChildren, hk, h]
    · simp [childSet, eraseMetaChildren, hk, ih]

theorem eraseMeta_setFileMeta (n : DirNode) (s1 t1 : Int) (n1 : String)
    (s2 t2 : Int) (n2 : String) :
    eraseMeta (setFileMeta n s2 t2 n2) = eraseMeta (setFileMeta n s1 t1 n1) := by
  cases n; simp [setFileMeta, eraseMeta]

theorem eraseMeta_insertComps (s1 t1 : Int) (n1 : String) (s2 t2 : Int)
    (n2 : String) :
    ∀ (comps : List String) (node : DirNode) (cur : String),
      eraseMeta (insertComps s2 t2 n2 node cur comps) =
        eraseMeta (insertComps s1 t1 n1 node cur comps) := by
  intro comps
  induction comps with
  | nil => intro node cur; simp [insertComps]
  | cons c rest ih =>
    intro node cur
    cases node with
    | mk nm fp isf s t tn ch =>
      cases rest with
      | nil =>
        simp only [insertComps, eraseMeta]
        exact congrArg (DirNode.mk nm fp isf 0 0 "")
          (eraseMetaChildren_childSet _ _ _ _ (by
            simp [eraseMeta_setFileMeta _ s1 t1 n1 s2 t2 n2]))
      | cons c2 r2 =>
        simp only [insertComps, eraseMeta]
        exact congrArg (DirNode.mk nm fp isf 0 0 "")
          (eraseMetaChildren_childSet _ _ _ _ (ih _ _))

/-- C7: re-inserting the same normalized path leaves the tree structure
deep-equal to the state after the first insertion (no nodes added,
removed or renamed — `eraseMeta` keeps exactly the structural fields),
and the whole double insertion equals a single insertion carrying the
second call's touch metadata: only the leaf's touch metadata is
overwritten. -/
theorem C7_reinsert_preserves_structure (normalize_path : String → String)
    (t : DirNode) (path : String) (s1 t1 : Int) (n1 : String)
    (s2 t2 : Int) (n2 : String) :
    eraseMeta (insert_file normalize_path
        (insert_file normalize_path t path s1 t1 n1) path s2 t2 n2) =
      eraseMeta (insert_file normalize_path t path s1 t1 n1) ∧
    insert_file normalize_path (insert_file normalize_path t path s1 t1 n1)
        path s2 t2 n2 =
      insert_file normalize_path t path s2 t2 n2 := by
  unfold insert_file
  constructor
  · rw [insertComps_twice]
    exact eraseMeta_insertComps s1 t1 n1 s2 t2 n2 _ t "/"
  · rw [insertComps_twice]

/-- The folder SVG icon string (directory_tree.hpp, line 13). -/
def folderSvg : String :=
  "<svg class=\x27svg-icon\x27 viewBox=\x270 0 20 20\x27><path d=\x27M2 4c0-1.1.9-2 2-2h4l2 2h6c1.1 0 2 .9 2 2v10c0 1.1-.9 2-2 2H4c-1.1 0-2-.9-2-2V4z\x27/></svg>"

/-- The file SVG icon string (directory_tree.hpp, line 14). -/
def fileSvg : String :=
  "<svg class=\x27svg-icon\x27 viewBox=\x270 0 20 20\x27><path d=\x27M13 2H6C4.9 2 4 2.9 4 4v12c0 1.1.9 2 2 2h8c1.1 0 2-.9 2-2V7l-3-5zM13 8V3.5L17.5 8H13z\x27/></svg>"

/-- The comparator of `generate_html_node`'s `std::sort` call
(directory_tree.hpp, lines 134-138), expressed as the non-strict total
order `le a b := not (less b a)`: directories before files; within a
group, names in ascending order.  The C++ strict comparator is
`less(a,b) = if a.is_file != b.is_file then !a.is_file else a.name < b.name`. -/
def nodeLE (a b : DirNode) : Bool :=
  if a.is_file == b.is_file then decide (a.name ≤ b.name) else b.is_file

/-- The child ordering used when rendering: sort the children values
(directories first, then files, both alphabetically).  The C++
`std::sort` is unstable, but the comparator is a strict total order on
a node's children (their map keys are distinct), so the sorted result
is uniquely determined. -/
def sortChildren (cs : List DirNode) : List DirNode := cs.mergeSort nodeLE

/-- Translation of `DirectoryTree::generate_html_node`
(directory_tree.hpp, lines 103-147): emit this node's markup, then the
children — directories before files, alphabetically within each group —
each rendered at depth + 2. -/
def generate_html_node : DirNode → Nat → String
  | .mk nm _fp isf seq tid tname ch, depth =>
    let indent := String.mk (List.replicate (depth * 2) ' ')
    let header :=
      indent ++ "<div class=\x27tree-node" ++
        (if isf then " file" else " directory") ++ "\x27>\n" ++
      indent ++ "  <div class=\x27node-content\x27>\n" ++
      (if !isf then
        indent ++ "    <span class=\x27folder-icon\x27 onclick=\x27toggleDirectory(this)\x27>" ++
          folderSvg ++ "</span>\n"
      else
        indent ++ "    <span class=\x27file-icon\x27>" ++ fileSvg ++ "</span>\n") ++
      indent ++ "    <span class=\x27name\x27>" ++ nm ++ "</span>\n" ++
      (if isf then
        (if seq > 0 then
          indent ++ "    <span class=\x27sequence\x27>[" ++ toString seq ++ "]</span>\n"
        else "") ++
        (if !(tname == "") then
          indent ++ "    <span class=\x27thread-info\x27>(Thread: " ++ toString tid ++
            " - " ++ tname ++ ")</span>\n"
        else "")
      else "") ++
      indent ++ "  </div>\n"
    let body :=
      if ch.isEmpty then ""
      else
        indent ++ "  <div class=\x27children\x27>\n" ++
        String.join ((sortChildren (ch.map (fun p => p.2))).attach.map
          (fun c => generate_html_node c.1 (depth + 2))) ++
        indent ++ "  </div>\n"
    header ++ body ++ indent ++ "</div>\n"
termination_by n _ => sizeOf n
decreasing_by
  have h2 : c.1 ∈ ch.map (fun p => p.2) := by
    have h1 := c.2
    simp only [sortChildren, List.mem_mergeSort] at h1
    exact h1
  obtain ⟨p, hp, hpe⟩ := List.mem_map.mp h2
  have h3 : sizeOf p < sizeOf ch := List.sizeOf_lt_of_mem hp
  have h4 : sizeOf c.1 < sizeOf p := by
    rw [← hpe]; cases p with | mk a b => simp
  simp only [DirNode.mk.sizeOf_spec]
  omega

/-- Translation of `DirectoryTree::generate_html` (directory_tree.hpp,
lines 94-98). -/
def generate_html (root : DirNode) : String :=
  "<div class=\x27directory-tree\x27>\n" ++ generate_html_node root 0 ++ "</div>\n"

theorem nodeLE_trans (a b c : DirNode) (h1 : nodeLE a b = true)
    (h2 : nodeLE b c = true) : nodeLE a c = true := by
  unfold nodeLE at h1 h2 ⊢
  cases ha : a.is_file <;> cases hb : b.is_file <;> cases hc : c.is_file <;>
    simp_all <;> exact le_trans h1 h2

theorem nodeLE_total (a b : DirNode) : (nodeLE a b || nodeLE b a) = true := by
  unfold nodeLE
  rcases le_total a.name b.name with h | h <;>
    cases ha : a.is_file <;> cases hb : b.is_file <;> simp [ha, hb, h]

/-- C8: rendering is deterministic (a pure function: rendering the same
tree twice yields identical output); the depth-first traversal emits,
at every level, the children in `sortChildren` order, which is sorted
by `nodeLE`; and `nodeLE a b` holds exactly when a is a directory and b
a file, or both have the same kind and a's segment name is ≤ b's — so
directories precede files and names ascend within each group. -/
theorem C8_render_deterministic_and_ordered :
    (∀ (node : DirNode) (depth : Nat),
      generate_html_node node depth = generate_html_node node depth) ∧
    (∀ root : DirNode, generate_html root = generate_html root) ∧
    (∀ cs : List DirNode,
      (sortChildren cs).Pairwise (fun a b => nodeLE a b = true)) ∧
    (∀ a b : DirNode, nodeLE a b = true ↔
      ((a.is_file = false ∧ b.is_file = true) ∨
       (a.is_file = b.is_file ∧ a.name ≤ b.name))) := by
  refine ⟨fun node depth => rfl, fun root => rfl, fun cs => ?_, fun a b => ?_⟩
  · have h := List.sorted_mergeSort
      (fun x y z hxy hyz => nodeLE_trans x y z hxy hyz)
      (fun x y => nodeLE_total x y) cs
    simpa [sortChildren] using h
  · unfold nodeLE
    cases ha : a.is_file <;> cases hb : b.is_file <;> simp [ha, hb]
